import Mathlib

/-!
# Verification of the H5 (Three-Wire UART) transport layer

Shallow embedding of `src/driver/src/transport/h5_transport.cpp`
(`H5Transport`): the receive dispatcher `processPacket`, the reliable
sender `send`, the receive assembler `dataHandler`, the `open` entry
point, the ACTIVE-state entry of the state machine, and the control
packet emitter `sendControlPacket`.

Bytes are modelled as `Nat` (the C++ code uses `uint8_t`; all values that
occur are < 256 and arithmetic promotions to `int` in comparisons are
modelled by plain `Nat` arithmetic, which agrees with C++ for these
ranges).  The framing codecs `h5_encode`/`slip_encode` live in files that
are not part of this tree (`h5.h` / `slip.h`); they are modelled from the
spec where noted.  Fallible receive-path steps return `Option`; `none`
models a null-pointer dereference (undefined behavior) arising from a
failed `dynamic_cast` in `processPacket`.
-/

set_option maxRecDepth 10000

namespace H5

/-- `h5_state_t` from the source (state machine states). -/
inductive h5_state where
  | STATE_UNKNOWN
  | STATE_START
  | STATE_RESET
  | STATE_UNINITIALIZED
  | STATE_INITIALIZED
  | STATE_ACTIVE
  | STATE_FAILED
deriving DecidableEq, Repr

open h5_state

/-- `h5_pkt_type_t` from the source (packet type field of the H5 header). -/
inductive h5_pkt_type where
  | ACK_PACKET
  | HCI_COMMAND_PACKET
  | ACL_DATA_PACKET
  | SYNC_DATA_PACKET
  | HCI_EVENT_PACKET
  | RESET_PACKET
  | VENDOR_SPECIFIC_PACKET
  | LINK_CONTROL_PACKET
deriving DecidableEq, Repr

open h5_pkt_type

/-- `control_pkt_type` from the source (argument of `sendControlPacket`). -/
inductive control_pkt_type where
  | CONTROL_PKT_RESET
  | CONTROL_PKT_ACK
  | CONTROL_PKT_SYNC
  | CONTROL_PKT_SYNC_RESPONSE
  | CONTROL_PKT_SYNC_CONFIG
  | CONTROL_PKT_SYNC_CONFIG_RESPONSE
deriving DecidableEq, Repr

open control_pkt_type

/-- Error codes surfaced by the transport (`nrf_error.h`, as used in
`h5_transport.cpp`). -/
inductive nrf_error where
  | NRF_SUCCESS
  | NRF_ERROR_INTERNAL
  | NRF_ERROR_TIMEOUT
  | NRF_ERROR_INVALID_STATE
deriving DecidableEq, Repr

open nrf_error

/-- `PACKET_RETRANSMISSIONS` from the source: number of times to send
reliable packets before giving in. -/
def PACKET_RETRANSMISSIONS : Nat := 4

/-- `OPEN_WAIT_TIMEOUT` (milliseconds) from the source: duration `open`
waits for state ACTIVE. -/
def OPEN_WAIT_TIMEOUT : Nat := 2000

/-- `NON_ACTIVE_STATE_TIMEOUT` (milliseconds) from the source. -/
def NON_ACTIVE_STATE_TIMEOUT : Nat := 250

/-- SYNC message first byte (`0x01 0x7e`, per the packet table in the
source file's header comment). -/
def syncFirstByte : Nat := 0x01

/-- SYNC message second byte. -/
def syncSecondByte : Nat := 0x7e

/-- SYNC RESPONSE first byte (`0x02 0x7d`). -/
def syncRspFirstByte : Nat := 0x02

/-- SYNC RESPONSE second byte. -/
def syncRspSecondByte : Nat := 0x7d

/-- CONFIG message first byte (`0x03 0xfc`). -/
def syncConfigFirstByte : Nat := 0x03

/-- CONFIG message second byte. -/
def syncConfigSecondByte : Nat := 0xfc

/-- CONFIG RESPONSE first byte (`0x04 0x7b`). -/
def syncConfigRspFirstByte : Nat := 0x04

/-- CONFIG RESPONSE second byte. -/
def syncConfigRspSecondByte : Nat := 0x7b

/-- Modelled from the spec: the implementation transmits a fixed CONFIG
byte (sliding-window size / version field); its concrete value is defined
in the missing header and is irrelevant to every claim below. -/
def syncConfigField : Nat := 0x11

/-- `StartExitCriterias` (exit criteria record of STATE_START). -/
structure StartExitCriterias where
  ioResourceError : Bool
  close : Bool
  isOpened : Bool
deriving DecidableEq, Repr

/-- `ResetExitCriterias` (exit criteria record of STATE_RESET). -/
structure ResetExitCriterias where
  ioResourceError : Bool
  close : Bool
  resetSent : Bool
deriving DecidableEq, Repr

/-- `UninitializedExitCriterias` (exit criteria record of
STATE_UNINITIALIZED). -/
structure UninitializedExitCriterias where
  ioResourceError : Bool
  close : Bool
  syncSent : Bool
  syncRspReceived : Bool
deriving DecidableEq, Repr

/-- `InitializedExitCriterias` (exit criteria record of
STATE_INITIALIZED). -/
structure InitializedExitCriterias where
  ioResourceError : Bool
  close : Bool
  syncConfigSent : Bool
  syncConfigRspReceived : Bool
  syncConfigReceived : Bool
  syncConfigRspSent : Bool
deriving DecidableEq, Repr

/-- `ActiveExitCriterias` (exit criteria record of STATE_ACTIVE). -/
structure ActiveExitCriterias where
  ioResourceError : Bool
  close : Bool
  irrecoverableSyncError : Bool
  syncReceived : Bool
deriving DecidableEq, Repr

/-- Modelled from the spec: `reset()` of an exit-criteria record (defined
in the missing header `h5_transport.h`) clears all its flags; "Each
record belongs to exactly one state; entering the state resets its
flags." -/
def StartExitCriterias.resetFlags : StartExitCriterias :=
  ⟨false, false, false⟩

/-- Modelled from the spec: cleared `ResetExitCriterias`. -/
def ResetExitCriterias.resetFlags : ResetExitCriterias :=
  ⟨false, false, false⟩

/-- Modelled from the spec: cleared `UninitializedExitCriterias`. -/
def UninitializedExitCriterias.resetFlags : UninitializedExitCriterias :=
  ⟨false, false, false, false⟩

/-- Modelled from the spec: cleared `InitializedExitCriterias`. -/
def InitializedExitCriterias.resetFlags : InitializedExitCriterias :=
  ⟨false, false, false, false, false, false⟩

/-- Modelled from the spec: cleared `ActiveExitCriterias`. -/
def ActiveExitCriterias.resetFlags : ActiveExitCriterias :=
  ⟨false, false, false, false⟩

/-- The mutable state of an `H5Transport` object: the two 3-bit sequence
counters, the receive assembler state (`c0Found`, `unprocessedData`),
`lastPacket`, `currentState`, the error counter and the five per-state
exit-criteria records (the C++ code holds the records behind pointers in
the `exitCriterias` map; here they are inline fields, looked up through
`exitCriteriasAt` below). -/
structure H5Transport where
  seqNum : Nat
  ackNum : Nat
  c0Found : Bool
  unprocessedData : List Nat
  lastPacket : List Nat
  currentState : h5_state
  errorPacketCount : Nat
  exitStart : StartExitCriterias
  exitReset : ResetExitCriterias
  exitUninitialized : UninitializedExitCriterias
  exitInitialized : InitializedExitCriterias
  exitActive : ActiveExitCriterias
deriving DecidableEq, Repr

/-- The state of an `H5Transport` right after the constructor ran
(`seqNum(0), ackNum(0), c0Found(false), unprocessedData(), ...,
currentState(STATE_START)`). -/
def initTransport : H5Transport where
  seqNum := 0
  ackNum := 0
  c0Found := false
  unprocessedData := []
  lastPacket := []
  currentState := STATE_START
  errorPacketCount := 0
  exitStart := StartExitCriterias.resetFlags
  exitReset := ResetExitCriterias.resetFlags
  exitUninitialized := UninitializedExitCriterias.resetFlags
  exitInitialized := InitializedExitCriterias.resetFlags
  exitActive := ActiveExitCriterias.resetFlags

/-- A value of the `exitCriterias` map: one of the five concrete
exit-criteria classes (the C++ map stores `ExitCriterias*` base
pointers). -/
inductive ExitCriteriasRec where
  | start (c : StartExitCriterias)
  | rst (c : ResetExitCriterias)
  | uninitialized (c : UninitializedExitCriterias)
  | initialized (c : InitializedExitCriterias)
  | active (c : ActiveExitCriterias)
deriving DecidableEq, Repr

/-- `exitCriterias[s]`: the map set up by `setupStateMachine` has entries
exactly for the five states START, RESET, UNINITIALIZED, INITIALIZED and
ACTIVE; indexing it with any other state would default-insert a null
`ExitCriterias*`, modelled as `none`. -/
def exitCriteriasAt (t : H5Transport) : h5_state → Option ExitCriteriasRec
  | STATE_START => some (ExitCriteriasRec.start t.exitStart)
  | STATE_RESET => some (ExitCriteriasRec.rst t.exitReset)
  | STATE_UNINITIALIZED => some (ExitCriteriasRec.uninitialized t.exitUninitialized)
  | STATE_INITIALIZED => some (ExitCriteriasRec.initialized t.exitInitialized)
  | STATE_ACTIVE => some (ExitCriteriasRec.active t.exitActive)
  | STATE_UNKNOWN => none
  | STATE_FAILED => none

/--
`dynamic_cast<ActiveExitCriterias*>(exitCriterias[currentState])->irrecoverableSyncError = true`
as it appears twice in `processPacket`: the `dynamic_cast` yields a valid
pointer only when the record stored for `currentState` really is an
`ActiveExitCriterias`; on any other record (or on a missing map entry)
the cast yields a null pointer and the write dereferences null, modelled
as `none`. -/
def setIrrecoverableSyncError (t : H5Transport) : Option H5Transport :=
  match exitCriteriasAt t t.currentState with
  | some (ExitCriteriasRec.active c) =>
      some { t with exitActive := { c with irrecoverableSyncError := true } }
  | _ => none

/-- `H5Transport::incrementSeqNum`: `seqNum++; seqNum = seqNum & 0x07;`. -/
def incrementSeqNum (t : H5Transport) : H5Transport :=
  { t with seqNum := (t.seqNum + 1) &&& 0x07 }

/-- `H5Transport::incrementAckNum`: `ackNum++; ackNum = ackNum & 0x07;`. -/
def incrementAckNum (t : H5Transport) : H5Transport :=
  { t with ackNum := (t.ackNum + 1) &&& 0x07 }

/-- The 4-bit packet-type codes (spec §6; the enum lives in the missing
`h5.h`). -/
def pktTypeCode : h5_pkt_type → Nat
  | ACK_PACKET => 0
  | HCI_COMMAND_PACKET => 1
  | ACL_DATA_PACKET => 2
  | SYNC_DATA_PACKET => 3
  | HCI_EVENT_PACKET => 4
  | RESET_PACKET => 5
  | VENDOR_SPECIFIC_PACKET => 9
  | LINK_CONTROL_PACKET => 15

/-- Modelled from the spec: `h5_encode` (in the missing `h5.h`/`h5.cpp`)
builds the 4-byte header of §3 — byte 0: ack (bits 0..2), integrity
(bit 3), reliable (bit 4), seq (bits 5..7); byte 1: packet type (bits
0..3) and the low 4 bits of the 12-bit payload length; byte 2: the high
8 bits of the length; byte 3: the checksum byte making the four header
bytes sum to 0 mod 256 — and appends the payload verbatim. -/
def h5_encode (payload : List Nat) (seq ack : Nat)
    (reliable integrity : Bool) (ptype : h5_pkt_type) : List Nat :=
  let b0 := (ack &&& 7) ||| (if integrity then 8 else 0) |||
            (if reliable then 16 else 0) ||| ((seq &&& 7) <<< 5)
  let b1 := pktTypeCode ptype ||| ((payload.length &&& 0xF) <<< 4)
  let b2 := (payload.length >>> 4) &&& 0xFF
  let b3 := (256 - (b0 + b1 + b2) % 256) % 256
  b0 :: b1 :: b2 :: b3 :: payload

/-- Modelled from the spec: the outer byte-stuffing escape — `0xC0`
becomes `0xDB 0xDC`, `0xDB` becomes `0xDB 0xDD`, everything else is
unchanged (§3). -/
def slipEscape (b : Nat) : List Nat :=
  if b = 0xC0 then [0xDB, 0xDC]
  else if b = 0xDB then [0xDB, 0xDD]
  else [b]

/-- Modelled from the spec: `slip_encode` (in the missing
`slip.h`/`slip.cpp`) wraps the escaped body in the `0xC0` delimiters
(§4.1). -/
def slip_encode (payload : List Nat) : List Nat :=
  0xC0 :: (payload.map slipEscape).flatten ++ [0xC0]

/-- An outgoing packet, recorded by the arguments the source hands to
`h5_encode` before stuffing and writing to the lower transport. -/
structure OutPacket where
  payload : List Nat
  seq : Nat
  ack : Nat
  reliable : Bool
  integrity : Bool
  ptype : h5_pkt_type
deriving DecidableEq, Repr

/-- The bytes that actually go on the wire for an outgoing packet. -/
def OutPacket.encoded (p : OutPacket) : List Nat :=
  slip_encode (h5_encode p.payload p.seq p.ack p.reliable p.integrity p.ptype)

/-- The `pkt_pattern` map of `sendControlPacket`.  `CONTROL_PKT_ACK` has
no entry in the C++ map; `std::map::operator[]` default-constructs an
empty payload for it. -/
def pkt_pattern : control_pkt_type → List Nat
  | CONTROL_PKT_RESET => []
  | CONTROL_PKT_SYNC => [syncFirstByte, syncSecondByte]
  | CONTROL_PKT_SYNC_RESPONSE => [syncRspFirstByte, syncRspSecondByte]
  | CONTROL_PKT_SYNC_CONFIG =>
      [syncConfigFirstByte, syncConfigSecondByte, syncConfigField]
  | CONTROL_PKT_SYNC_CONFIG_RESPONSE =>
      [syncConfigRspFirstByte, syncConfigRspSecondByte, syncConfigField]
  | CONTROL_PKT_ACK => []

/-- The `switch` of `sendControlPacket` choosing the H5 packet type. -/
def controlPacketH5Type : control_pkt_type → h5_pkt_type
  | CONTROL_PKT_RESET => RESET_PACKET
  | CONTROL_PKT_ACK => ACK_PACKET
  | CONTROL_PKT_SYNC => LINK_CONTROL_PACKET
  | CONTROL_PKT_SYNC_RESPONSE => LINK_CONTROL_PACKET
  | CONTROL_PKT_SYNC_CONFIG => LINK_CONTROL_PACKET
  | CONTROL_PKT_SYNC_CONFIG_RESPONSE => LINK_CONTROL_PACKET

/-- `H5Transport::sendControlPacket`: encodes the pattern for `type` with
`seq_num = 0`, `ack_num = (type == CONTROL_PKT_ACK ? ackNum : 0)`,
`reliable = false`, `integrity = false`, and writes it to the lower
transport.  The transport state is unchanged; the emitted packet is the
result. -/
def sendControlPacket (t : H5Transport) (ct : control_pkt_type) : OutPacket where
  payload := pkt_pattern ct
  seq := 0
  ack := if ct = CONTROL_PKT_ACK then t.ackNum else 0
  reliable := false
  integrity := false
  ptype := controlPacketH5Type ct

/-- An incoming packet after the `slip_decode`/`h5_decode` stage of
`processPacket` succeeded: the decoded header fields and the decoded
payload (`h5Payload`).  `h5_decode` extracts `seq_num`/`ack_num` as 3-bit
fields, so both are < 8 for any packet the decoder can produce. -/
structure InPacket where
  seq_num : Nat
  ack_num : Nat
  reliable : Bool
  packet_type : h5_pkt_type
  payload : List Nat
deriving DecidableEq, Repr

/-- The externally visible effects of one `processPacket` call: control
packets written to the lower transport, payloads handed to the data
callback, and whether `ackWaitCondition` / `syncWaitCondition` were
notified. -/
structure Effects where
  sent : List OutPacket
  delivered : List (List Nat)
  ackNotified : Bool
  syncNotified : Bool
deriving DecidableEq, Repr

/-- No effects. -/
def Effects.noEffects : Effects := ⟨[], [], false, false⟩

/-- Merge the effects of two consecutive calls. -/
def Effects.append (a b : Effects) : Effects :=
  ⟨a.sent ++ b.sent, a.delivered ++ b.delivered,
   a.ackNotified || b.ackNotified, a.syncNotified || b.syncNotified⟩

/-- `H5Transport::processPacket`, after the decode stage (lines 215-311
of the source): dispatch on the current state and the decoded packet
type.  In STATE_RESET every packet is dropped (with a wake-up); link
control packets drive the handshake flags; reliable vendor-specific
packets in ACTIVE advance `ackNum`, emit an ACK and deliver the payload;
ACK packets compare `ack_num` with `seqNum + 1` (plain integer
arithmetic, as in the C++ `ack_num == seqNum + 1` after promotion) and
either advance `seqNum`, drop the packet, or flag an irrecoverable sync
error through a `dynamic_cast` to `ActiveExitCriterias` that is only
valid in STATE_ACTIVE (`none` = null-pointer dereference). -/
def processPacket (t : H5Transport) (p : InPacket) :
    Option (H5Transport × Effects) :=
  if t.currentState = STATE_RESET then
    some (t, { Effects.noEffects with syncNotified := true })
  else if p.packet_type = LINK_CONTROL_PACKET then
    let isSyncPacket :=
      p.payload.getD 0 0 = syncFirstByte ∧ p.payload.getD 1 0 = syncSecondByte
    let isSyncResponsePacket :=
      p.payload.getD 0 0 = syncRspFirstByte ∧ p.payload.getD 1 0 = syncRspSecondByte
    let isSyncConfigPacket :=
      p.payload.getD 0 0 = syncConfigFirstByte ∧
        p.payload.getD 1 0 = syncConfigSecondByte
    let isSyncConfigResponsePacket :=
      p.payload.getD 0 0 = syncConfigRspFirstByte ∧
        p.payload.getD 1 0 = syncConfigRspSecondByte
    if t.currentState = STATE_UNINITIALIZED then
      let r1 :=
        if isSyncResponsePacket then
          ({ t with exitUninitialized :=
               { t.exitUninitialized with syncRspReceived := true } },
           { Effects.noEffects with syncNotified := true })
        else (t, Effects.noEffects)
      if isSyncPacket then
        some (r1.1, { r1.2 with
          sent := r1.2.sent ++ [sendControlPacket r1.1 CONTROL_PKT_SYNC_RESPONSE] })
      else some r1
    else if t.currentState = STATE_INITIALIZED then
      let r1 :=
        if isSyncConfigResponsePacket then
          ({ t with exitInitialized :=
               { t.exitInitialized with syncConfigRspReceived := true } },
           { Effects.noEffects with syncNotified := true })
        else (t, Effects.noEffects)
      let r2 :=
        if isSyncConfigPacket then
          ({ r1.1 with exitInitialized :=
               { r1.1.exitInitialized with
                   syncConfigReceived := true, syncConfigRspSent := true } },
           { r1.2 with
               sent := r1.2.sent ++ [sendControlPacket r1.1 CONTROL_PKT_SYNC_CONFIG_RESPONSE],
               syncNotified := true })
        else r1
      if isSyncPacket then
        some (r2.1, { r2.2 with
          sent := r2.2.sent ++ [sendControlPacket r2.1 CONTROL_PKT_SYNC_RESPONSE] })
      else some r2
    else if t.currentState = STATE_ACTIVE then
      if isSyncPacket then
        some ({ t with exitActive := { t.exitActive with syncReceived := true } },
              { Effects.noEffects with syncNotified := true })
      else some (t, Effects.noEffects)
    else some (t, Effects.noEffects)
  else if p.packet_type = VENDOR_SPECIFIC_PACKET then
    if t.currentState = STATE_ACTIVE then
      if p.reliable then
        if p.seq_num = t.ackNum then
          let t1 := incrementAckNum t
          some (t1, { sent := [sendControlPacket t1 CONTROL_PKT_ACK],
                      delivered := [p.payload],
                      ackNotified := false, syncNotified := false })
        else
          match setIrrecoverableSyncError t with
          | some t1 => some (t1, { Effects.noEffects with syncNotified := true })
          | none => none
      else some (t, Effects.noEffects)
    else some (t, Effects.noEffects)
  else if p.packet_type = ACK_PACKET then
    if p.ack_num = t.seqNum + 1 then
      some (incrementSeqNum t, { Effects.noEffects with ackNotified := true })
    else if p.ack_num = t.seqNum then
      some (t, Effects.noEffects)
    else
      match setIrrecoverableSyncError t with
      | some t1 => some (t1, { Effects.noEffects with syncNotified := true })
      | none => none
  else some (t, Effects.noEffects)

/-! ## The reliable sender (`H5Transport::send`)

`send` holds `ackMutex` for its whole duration, so ACK packets are
dispatched by the receive thread only while `send` sits in
`ackWaitCondition.wait_for`.  Each wait period is modelled as a *window*:
the list of packets the receive thread dispatches during that wait, in
order.  The wait returns `no_timeout` exactly when a dispatched packet
notifies `ackWaitCondition`; packets arriving after that notification are
processed outside the `send` call and are not part of its window. -/

/-- Dispatch the packets of one wait window in order, stopping at the
first one that notifies `ackWaitCondition` (which wakes `send`).
Returns the transport state at the wake-up (or at the timeout) and
whether the wait was notified. -/
def processWindow (t : H5Transport) : List InPacket → Option (H5Transport × Bool)
  | [] => some (t, false)
  | p :: rest =>
    match processPacket t p with
    | none => none
    | some (t1, eff) =>
      if eff.ackNotified then some (t1, true) else processWindow t1 rest

/-- The retransmission loop of `H5Transport::send` (lines 162-178): on
each iteration write `lastPacket` to the lower transport, wait for an ack
(one window), return `NRF_SUCCESS` if notified, and after `fuel`
fruitless iterations clear `lastPacket` and return `NRF_ERROR_TIMEOUT`.
Returns the transport state at return, the frames transmitted by this
call in order, and the result code. -/
def sendLoop (t : H5Transport) (windows : List (List InPacket)) :
    Nat → Option (H5Transport × List (List Nat) × nrf_error)
  | 0 => some ({ t with lastPacket := [] }, [], NRF_ERROR_TIMEOUT)
  | fuel + 1 =>
    let tx := t.lastPacket
    match processWindow t (windows.headD []) with
    | none => none
    | some (t1, notified) =>
      if notified then
        some ({ t1 with lastPacket := [] }, [tx], NRF_SUCCESS)
      else
        match sendLoop t1 windows.tail fuel with
        | none => none
        | some (t2, txs, r) => some (t2, tx :: txs, r)

/-- `H5Transport::send`: reject unless ACTIVE; encode the payload with
the current `seqNum`/`ackNum`, `reliable = true`, `integrity = true` and
type `VENDOR_SPECIFIC_PACKET`; stuff it; store it in `lastPacket`; then
run the retransmission loop `PACKET_RETRANSMISSIONS` times. -/
def send (t : H5Transport) (data : List Nat) (windows : List (List InPacket)) :
    Option (H5Transport × List (List Nat) × nrf_error) :=
  if t.currentState ≠ STATE_ACTIVE then
    some (t, [], NRF_ERROR_INVALID_STATE)
  else
    let h5EncodedPacket :=
      h5_encode data t.seqNum t.ackNum true true VENDOR_SPECIFIC_PACKET
    let encodedPacket := slip_encode h5EncodedPacket
    sendLoop { t with lastPacket := encodedPacket } windows PACKET_RETRANSMISSIONS

/-- The result code of a `send` call. -/
def sendResultCode (t : H5Transport) (data : List Nat)
    (windows : List (List InPacket)) : Option nrf_error :=
  (send t data windows).map fun r => r.2.2

/-- The value of `seqNum` when a `send` call returns. -/
def sendFinalSeqNum (t : H5Transport) (data : List Nat)
    (windows : List (List InPacket)) : Option Nat :=
  (send t data windows).map fun r => r.1.seqNum

/-! ## The receive assembler (`H5Transport::dataHandler`) -/

/-- The assembler state carried across `dataHandler` calls: the `c0Found`
and `unprocessedData` members of `H5Transport` (the only members
`dataHandler` reads or writes besides handing complete frames to
`processPacket`). -/
structure AsmState where
  c0Found : Bool
  unprocessedData : List Nat
deriving DecidableEq, Repr

/-- The byte loop of `H5Transport::dataHandler` (lines 335-369): for each
byte, append it to `packet`; on a `0xC0` with no delimiter seen, restart
`packet` as `[0xC0]` and set `c0Found`; on a `0xC0` with `c0Found` and
`packet` of size exactly 2 (two delimiters back to back), restart
`packet` as `[0xC0]`; on any other `0xC0` with `c0Found`, emit `packet`
as a complete frame, clear `packet` and `unprocessedData` and reset
`c0Found`.  Returns `(c0Found, packet, unprocessedData, emitted
frames)`. -/
def dataHandlerLoop (c0 : Bool) (packet unproc : List Nat) :
    List Nat → Bool × List Nat × List Nat × List (List Nat)
  | [] => (c0, packet, unproc, [])
  | b :: rest =>
    let packet1 := packet ++ [b]
    if b = 0xC0 then
      if c0 then
        if packet1.length = 2 then
          dataHandlerLoop true [0xC0] unproc rest
        else
          let r := dataHandlerLoop false [] [] rest
          (r.1, r.2.1, r.2.2.1, packet1 :: r.2.2.2)
      else
        dataHandlerLoop true [0xC0] unproc rest
    else
      dataHandlerLoop c0 packet1 unproc rest

/-- `H5Transport::dataHandler`: start `packet` from the carried
`unprocessedData`, run the byte loop over the chunk, and store any
non-empty remaining `packet` back as `unprocessedData`.  Returns the new
assembler state and the frames handed to `processPacket` in order. -/
def dataHandler (st : AsmState) (chunk : List Nat) :
    AsmState × List (List Nat) :=
  let r := dataHandlerLoop st.c0Found st.unprocessedData st.unprocessedData chunk
  if r.2.1 ≠ [] then (⟨r.1, r.2.1⟩, r.2.2.2)
  else (⟨r.1, r.2.2.1⟩, r.2.2.2)

/-- Feed a sequence of chunks (successive lower-transport callbacks) to
`dataHandler`, collecting all frames handed to `processPacket`. -/
def dataHandlerChunks (st : AsmState) :
    List (List Nat) → AsmState × List (List Nat)
  | [] => (st, [])
  | c :: cs =>
    let r1 := dataHandler st c
    let r2 := dataHandlerChunks r1.1 cs
    (r2.1, r1.2 ++ r2.2)

/-! ## `H5Transport::open` and the ACTIVE state entry -/

/-- `H5Transport::waitForState(state, timeout)`: after the (bounded)
wait, report whether `currentState` equals the awaited state.  Real time
is not modelled; `observed` is the value of `currentState` when the wait
ends, i.e. no later than `timeout` milliseconds after the call. -/
def waitForState (target observed : h5_state) : Bool :=
  observed = target

/-- `H5Transport::open` (lines 72-115): fail with `NRF_ERROR_INTERNAL`
unless `currentState` is START; start the state machine and clear
`lastPacket`; a failure of `Transport::open` sets
`ioResourceError` and is returned as is; a failure of the lower
transport's `open` sets `ioResourceError` and is returned as
`NRF_ERROR_INTERNAL`; otherwise set `isOpened` and return `NRF_SUCCESS`
exactly when `waitForState(STATE_ACTIVE, OPEN_WAIT_TIMEOUT)` holds, else
`NRF_ERROR_TIMEOUT`.  `baseOpen` and `nextOpen` are the result codes of
the two collaborator `open` calls; `stateAfterWait` is `currentState`
when the bounded wait ends. -/
def openTransport (t : H5Transport) (baseOpen nextOpen : nrf_error)
    (stateAfterWait : h5_state) : H5Transport × nrf_error :=
  if t.currentState ≠ STATE_START then
    (t, NRF_ERROR_INTERNAL)
  else
    let t0 := { t with currentState := STATE_START, lastPacket := [] }
    if baseOpen ≠ NRF_SUCCESS then
      ({ t0 with exitStart := { t0.exitStart with ioResourceError := true } },
       baseOpen)
    else if nextOpen ≠ NRF_SUCCESS then
      ({ t0 with exitStart := { t0.exitStart with ioResourceError := true } },
       NRF_ERROR_INTERNAL)
    else
      let t1 := { t0 with exitStart := { t0.exitStart with isOpened := true } }
      if waitForState STATE_ACTIVE stateAfterWait then (t1, NRF_SUCCESS)
      else (t1, NRF_ERROR_TIMEOUT)

/-- The entry of the STATE_ACTIVE action (lines 503-512): `seqNum = 0;
ackNum = 0;` then `exit->reset()`, before the action waits for (and
processes) anything. -/
def enterActive (t : H5Transport) : H5Transport :=
  { t with seqNum := 0, ackNum := 0,
           exitActive := ActiveExitCriterias.resetFlags }

/-- Packets dispatched (by the receive thread) while the state machine
sits in a state's wait loop, processed in order. -/
def processEvents (t : H5Transport) :
    List InPacket → Option (H5Transport × Effects)
  | [] => some (t, Effects.noEffects)
  | p :: ps =>
    match processPacket t p with
    | none => none
    | some (t1, e1) =>
      match processEvents t1 ps with
      | none => none
      | some (t2, e2) => some (t2, Effects.append e1 e2)

/-- The transition chosen when the ACTIVE action's exit criteria are
fulfilled (lines 519-534). -/
def activeNextState (t : H5Transport) : h5_state :=
  if t.exitActive.syncReceived || t.exitActive.irrecoverableSyncError then
    STATE_RESET
  else if t.exitActive.close then STATE_START
  else if t.exitActive.ioResourceError then STATE_FAILED
  else STATE_FAILED

/-- The whole STATE_ACTIVE action: run the entry (counter reset), process
the packets that arrive while the action waits, then pick the next
state. -/
def activeStateAction (t : H5Transport) (events : List InPacket) :
    Option (H5Transport × Effects × h5_state) :=
  match processEvents (enterActive t) events with
  | none => none
  | some (t1, eff) => some (t1, eff, activeNextState t1)

/-! ## Helper lemmas -/

/-- Masking with `0x07` is reduction modulo 8 (the C++ code writes
`seqNum & 0x07`, the spec speaks of `mod 8`). -/
theorem land_seven (n : Nat) : n &&& 7 = n % 8 := by
  have h7 : (7 : Nat) = 2 ^ 3 - 1 := by norm_num
  have h8 : (8 : Nat) = 2 ^ 3 := by norm_num
  rw [h7, h8]
  apply Nat.eq_of_testBit_eq
  intro i
  rw [Nat.testBit_and, Nat.testBit_mod_two_pow, Nat.testBit_two_pow_sub_one]
  rw [Bool.and_comm]

/-- Flagging the irrecoverable sync error succeeds exactly in
STATE_ACTIVE (in every other state the `dynamic_cast` yields null), and
then only sets the flag in the ACTIVE exit-criteria record. -/
theorem setIrrecoverableSyncError_eq_some (t t' : H5Transport) :
    setIrrecoverableSyncError t = some t' ↔
      t.currentState = STATE_ACTIVE ∧
        t' = { t with exitActive :=
                 { t.exitActive with irrecoverableSyncError := true } } := by
  unfold setIrrecoverableSyncError
  cases hs : t.currentState <;> simp [exitCriteriasAt, hs, eq_comm]

/-- `processPacket` changes `seqNum` exactly when it notifies
`ackWaitCondition`, and then by the masked increment; it never changes
`currentState`. -/
theorem processPacket_seqNum (t t1 : H5Transport) (p : InPacket) (eff : Effects)
    (h : processPacket t p = some (t1, eff)) :
    t1.seqNum = (if eff.ackNotified then (t.seqNum + 1) &&& 7 else t.seqNum) ∧
      t1.currentState = t.currentState := by
  simp only [processPacket] at h
  repeat' split at h
  all_goals (try cases h)
  all_goals
    simp_all [incrementSeqNum, incrementAckNum, Effects.noEffects,
      setIrrecoverableSyncError_eq_some]

/-- Across one wait window `seqNum` advances (by the masked increment)
exactly when the window notified `ackWaitCondition`. -/
theorem processWindow_seqNum (w : List InPacket) (t t1 : H5Transport) (b : Bool)
    (h : processWindow t w = some (t1, b)) :
    t1.seqNum = (if b then (t.seqNum + 1) &&& 7 else t.seqNum) := by
  induction w generalizing t with
  | nil =>
    simp only [processWindow] at h
    cases h
    simp
  | cons p rest ih =>
    simp only [processWindow] at h
    cases hpp : processPacket t p with
    | none => rw [hpp] at h; cases h
    | some pr =>
      obtain ⟨t', eff⟩ := pr
      rw [hpp] at h
      obtain ⟨hseq, -⟩ := processPacket_seqNum t t' p eff hpp
      by_cases hn : eff.ackNotified
      · simp only [hn, if_true] at h hseq
        cases h
        simp [hseq]
      · simp only [hn, if_false, Bool.false_eq_true, ite_false] at h hseq
        have := ih t' h
        rw [this, hseq]

/-- Across the retransmission loop: a `NRF_SUCCESS` return means `seqNum`
advanced by exactly one masked increment, a `NRF_ERROR_TIMEOUT` return
means it is unchanged. -/
theorem sendLoop_seqNum (fuel : Nat) (t t2 : H5Transport)
    (ws : List (List InPacket)) (txs : List (List Nat)) (r : nrf_error)
    (h : sendLoop t ws fuel = some (t2, txs, r)) :
    (r = NRF_SUCCESS → t2.seqNum = (t.seqNum + 1) &&& 7) ∧
      (r = NRF_ERROR_TIMEOUT → t2.seqNum = t.seqNum) := by
  induction fuel generalizing t ws txs with
  | zero =>
    simp only [sendLoop] at h
    cases h
    exact ⟨fun hr => absurd hr (by decide), fun _ => rfl⟩
  | succ fuel ih =>
    simp only [sendLoop] at h
    cases hpw : processWindow t (ws.headD []) with
    | none => rw [hpw] at h; cases h
    | some pr =>
      obtain ⟨t1, notified⟩ := pr
      rw [hpw] at h
      have hw := processWindow_seqNum _ _ _ _ hpw
      cases notified with
      | true =>
        simp only [if_true] at h
        cases h
        simp only [if_true] at hw
        exact ⟨fun _ => hw, fun hr => absurd hr (by decide)⟩
      | false =>
        simp only [Bool.false_eq_true, ite_false] at h hw
        cases hsl : sendLoop t1 ws.tail fuel with
        | none => rw [hsl] at h; cases h
        | some res =>
          obtain ⟨t2', txs', r'⟩ := res
          rw [hsl] at h
          cases h
          have := ih t1 ws.tail txs' hsl
          rw [hw] at this
          exact this

/-! ## Claim theorems -/

/-- C1 (code_bug evidence): the ACK handler advances `seqNum` and
notifies `ackWaitCondition` for an in-range acknowledgement
(`seqNum = 3`, `ack_num = 4`), but at the wrap (`seqNum = 7`,
`ack_num = 0`, which per the mod-8 rule acknowledges the outstanding
frame) the comparison `ack_num == seqNum + 1` is taken without reduction
modulo 8, so the code leaves `seqNum = 7`, never notifies
`ackWaitCondition`, and instead flags an irrecoverable sync error. -/
theorem processPacket_ack_wrap_fails :
    processPacket { initTransport with currentState := STATE_ACTIVE, seqNum := 3 }
        ⟨0, 4, false, ACK_PACKET, []⟩ =
      some ({ initTransport with currentState := STATE_ACTIVE, seqNum := 4 },
            { Effects.noEffects with ackNotified := true }) ∧
    processPacket { initTransport with currentState := STATE_ACTIVE, seqNum := 7 }
        ⟨0, 0, false, ACK_PACKET, []⟩ =
      some ({ initTransport with
                currentState := STATE_ACTIVE, seqNum := 7,
                exitActive := { ActiveExitCriterias.resetFlags with
                                  irrecoverableSyncError := true } },
            { Effects.noEffects with syncNotified := true }) := by
  constructor <;> rfl

/-- C7 (code_bug evidence): the ACK dispatch of `processPacket` carries
no state guard, so an ACK packet with `ack_num == seqNum + 1` processed
in STATE_INITIALIZED — a state other than ACTIVE — still advances
`seqNum` and notifies `ackWaitCondition`, contradicting the invariant
that sequence counters change only in ACTIVE. -/
theorem processPacket_ack_advances_outside_active :
    processPacket { initTransport with currentState := STATE_INITIALIZED, seqNum := 3 }
        ⟨0, 4, false, ACK_PACKET, []⟩ =
      some ({ initTransport with currentState := STATE_INITIALIZED, seqNum := 4 },
            { Effects.noEffects with ackNotified := true }) := by
  rfl

/-- C10: an ACK packet whose `ack_num` equals neither `seqNum` nor
`(seqNum + 1) mod 8`, dispatched while the state is START, UNINITIALIZED
or INITIALIZED, reaches the
`dynamic_cast<ActiveExitCriterias*>(exitCriterias[currentState])`
write; the record stored for those states is not an
`ActiveExitCriterias`, so the cast yields null and the write dereferences
a null pointer (modelled as `none`) instead of dropping the frame. -/
theorem processPacket_ack_out_of_sync_nonactive_crashes
    (t : H5Transport) (p : InPacket)
    (hstate : t.currentState = STATE_START ∨
      t.currentState = STATE_UNINITIALIZED ∨
      t.currentState = STATE_INITIALIZED)
    (hack : p.packet_type = ACK_PACKET)
    (hseq : t.seqNum < 8) (hnum : p.ack_num < 8)
    (h1 : p.ack_num ≠ t.seqNum) (h2 : p.ack_num ≠ (t.seqNum + 1) % 8) :
    processPacket t p = none := by
  have hne1 : p.ack_num ≠ t.seqNum + 1 := by
    rcases Nat.lt_or_ge t.seqNum 7 with hlt | hge
    · rwa [Nat.mod_eq_of_lt (by omega)] at h2
    · omega
  unfold processPacket setIrrecoverableSyncError
  rcases hstate with hs | hs | hs <;>
    simp [hs, hack, hne1, h1, exitCriteriasAt]

/-- C10 witness: a concrete crash — STATE_INITIALIZED, `seqNum = 0`, ACK
with `ack_num = 5`. -/
theorem processPacket_ack_out_of_sync_nonactive_crashes_witness :
    processPacket { initTransport with currentState := STATE_INITIALIZED }
      ⟨0, 5, false, ACK_PACKET, []⟩ = none :=
  processPacket_ack_out_of_sync_nonactive_crashes
    { initTransport with currentState := STATE_INITIALIZED }
    ⟨0, 5, false, ACK_PACKET, []⟩
    (Or.inr (Or.inr rfl)) rfl (by decide) (by decide) (by decide) (by decide)

/-- C5: `send` called in any state other than ACTIVE fails immediately
with `NRF_ERROR_INVALID_STATE`, transmits nothing, and leaves the whole
transport state (counters, assembler state, exit criteria) untouched. -/
theorem send_not_active_no_side_effects (t : H5Transport) (data : List Nat)
    (windows : List (List InPacket)) (h : t.currentState ≠ STATE_ACTIVE) :
    send t data windows = some (t, [], NRF_ERROR_INVALID_STATE) := by
  simp [send, h]

/-- C5 witness: `send` on a freshly constructed transport (state
START). -/
theorem send_not_active_no_side_effects_witness :
    send initTransport [0xAA, 0xBB] [] =
      some (initTransport, [], NRF_ERROR_INVALID_STATE) :=
  send_not_active_no_side_effects initTransport [0xAA, 0xBB] [] (by decide)

/-- C3: whenever a `send` call returns `NRF_SUCCESS`, `seqNum` has
advanced by exactly 1 modulo 8 relative to its value at the call;
whenever it returns `NRF_ERROR_TIMEOUT`, `seqNum` is unchanged. -/
theorem send_success_advances_seqNum (t : H5Transport) (data : List Nat)
    (ws : List (List InPacket)) :
    (sendResultCode t data ws = some NRF_SUCCESS →
      sendFinalSeqNum t data ws = some ((t.seqNum + 1) % 8)) ∧
    (sendResultCode t data ws = some NRF_ERROR_TIMEOUT →
      sendFinalSeqNum t data ws = some t.seqNum) := by
  unfold sendResultCode sendFinalSeqNum
  by_cases hs : t.currentState = STATE_ACTIVE
  · constructor
    · intro hr
      rw [Option.map_eq_some'] at hr
      obtain ⟨⟨t2, txs, r⟩, hsend, hcode⟩ := hr
      have hcode' : r = NRF_SUCCESS := hcode
      have hsend2 := hsend
      simp only [send, hs] at hsend2
      rw [if_neg (by simp)] at hsend2
      have hres := (sendLoop_seqNum _ _ _ _ _ _ hsend2).1 hcode'
      rw [hsend]
      simp only [Option.map_some', Option.some.injEq]
      rw [hres, land_seven]
    · intro hr
      rw [Option.map_eq_some'] at hr
      obtain ⟨⟨t2, txs, r⟩, hsend, hcode⟩ := hr
      have hcode' : r = NRF_ERROR_TIMEOUT := hcode
      have hsend2 := hsend
      simp only [send, hs] at hsend2
      rw [if_neg (by simp)] at hsend2
      have hres := (sendLoop_seqNum _ _ _ _ _ _ hsend2).2 hcode'
      rw [hsend]
      simp only [Option.map_some', Option.some.injEq]
      rw [hres]
  · simp [send, hs]

/-- C3 witness: in ACTIVE with `seqNum = 0`, a window delivering an ACK
with `ack_num = 1` makes `send` succeed with `seqNum` advanced to
`(0 + 1) % 8`. -/
theorem send_success_advances_seqNum_witness :
    sendFinalSeqNum { initTransport with currentState := STATE_ACTIVE } []
        [[⟨0, 1, false, ACK_PACKET, []⟩]] =
      some ((({ initTransport with
                  currentState := STATE_ACTIVE } : H5Transport).seqNum + 1) % 8) :=
  (send_success_advances_seqNum { initTransport with currentState := STATE_ACTIVE }
    [] [[⟨0, 1, false, ACK_PACKET, []⟩]]).1 (by decide)

/-- C4: if the peer never acknowledges (no packet arrives in any wait
window), `send` writes the identical encoded frame — the bytes computed
once, with the sequence number fixed at the value held at the call —
exactly `PACKET_RETRANSMISSIONS = 4` times and then returns
`NRF_ERROR_TIMEOUT` with `seqNum` (and everything except `lastPacket`)
unchanged. -/
theorem send_never_acked_retransmits (t : H5Transport) (data : List Nat)
    (h : t.currentState = STATE_ACTIVE) :
    send t data [] =
      some ({ t with lastPacket := [] },
            List.replicate PACKET_RETRANSMISSIONS
              (slip_encode (h5_encode data t.seqNum t.ackNum true true
                VENDOR_SPECIFIC_PACKET)),
            NRF_ERROR_TIMEOUT) := by
  unfold send
  rw [if_neg (by simp [h])]
  rfl

/-- C4 witness: a concrete unacknowledged `send` of `[0xAA, 0xBB]`. -/
theorem send_never_acked_retransmits_witness :
    send { initTransport with currentState := STATE_ACTIVE } [0xAA, 0xBB] [] =
      some ({ initTransport with currentState := STATE_ACTIVE, lastPacket := [] },
            List.replicate PACKET_RETRANSMISSIONS
              (slip_encode (h5_encode [0xAA, 0xBB] 0 0 true true
                VENDOR_SPECIFIC_PACKET)),
            NRF_ERROR_TIMEOUT) :=
  send_never_acked_retransmits
    { initTransport with currentState := STATE_ACTIVE } [0xAA, 0xBB] rfl

/-- C2: in ACTIVE, a received reliable VENDOR_SPECIFIC packet with
`seq_num = ackNum` advances `ackNum` by exactly 1 modulo 8, emits exactly
one ACK control frame carrying the new `ackNum`, and delivers the payload
via the data callback; with `seq_num ≠ ackNum` nothing is delivered or
emitted and `irrecoverableSyncError` is set with a notification. -/
theorem vendor_reliable_frame_handling (t : H5Transport) (p : InPacket)
    (hs : t.currentState = STATE_ACTIVE)
    (hp : p.packet_type = VENDOR_SPECIFIC_PACKET)
    (hr : p.reliable = true) :
    (p.seq_num = t.ackNum →
      processPacket t p =
        some (incrementAckNum t,
          { sent := [sendControlPacket (incrementAckNum t) CONTROL_PKT_ACK],
            delivered := [p.payload],
            ackNotified := false, syncNotified := false }) ∧
      (incrementAckNum t).ackNum = (t.ackNum + 1) % 8 ∧
      (sendControlPacket (incrementAckNum t) CONTROL_PKT_ACK).ack =
        (t.ackNum + 1) % 8 ∧
      (sendControlPacket (incrementAckNum t) CONTROL_PKT_ACK).ptype =
        ACK_PACKET) ∧
    (p.seq_num ≠ t.ackNum →
      processPacket t p =
        some ({ t with exitActive :=
                  { t.exitActive with irrecoverableSyncError := true } },
              { Effects.noEffects with syncNotified := true })) := by
  constructor
  · intro heq
    refine ⟨?_, ?_, ?_, rfl⟩
    · simp [processPacket, hs, hp, hr, heq]
    · simp [incrementAckNum, land_seven]
    · simp [sendControlPacket, incrementAckNum, land_seven]
  · intro hne
    simp [processPacket, hs, hp, hr, hne, setIrrecoverableSyncError,
      exitCriteriasAt]

/-- C2 witness: in-order reliable frame (`seq_num = ackNum = 0`) with
payload `[1, 2]`. -/
theorem vendor_reliable_frame_handling_witness :
    processPacket { initTransport with currentState := STATE_ACTIVE }
        ⟨0, 0, true, VENDOR_SPECIFIC_PACKET, [1, 2]⟩ =
      some (incrementAckNum { initTransport with currentState := STATE_ACTIVE },
        { sent := [sendControlPacket
            (incrementAckNum { initTransport with currentState := STATE_ACTIVE })
            CONTROL_PKT_ACK],
          delivered := [[1, 2]],
          ackNotified := false, syncNotified := false }) ∧
    (incrementAckNum { initTransport with
        currentState := STATE_ACTIVE }).ackNum = (0 + 1) % 8 ∧
    (sendControlPacket
      (incrementAckNum { initTransport with currentState := STATE_ACTIVE })
      CONTROL_PKT_ACK).ack = (0 + 1) % 8 ∧
    (sendControlPacket
      (incrementAckNum { initTransport with currentState := STATE_ACTIVE })
      CONTROL_PKT_ACK).ptype = ACK_PACKET :=
  (vendor_reliable_frame_handling
    { initTransport with currentState := STATE_ACTIVE }
    ⟨0, 0, true, VENDOR_SPECIFIC_PACKET, [1, 2]⟩ rfl rfl rfl).1 rfl

/-- C8: the STATE_ACTIVE action begins by resetting both sequence
counters to 0 (and clearing the ACTIVE exit criteria) *before* any packet
is processed or emitted in that state: the entry state has
`seqNum = ackNum = 0`, and the whole action — on every entry, first
bring-up and every re-entry through RESET alike — is independent of the
counter values left behind by the previous ACTIVE period. -/
theorem active_entry_resets_counters (t : H5Transport)
    (events : List InPacket) (s a : Nat) :
    (enterActive t).seqNum = 0 ∧ (enterActive t).ackNum = 0 ∧
    activeStateAction { t with seqNum := s, ackNum := a } events =
      activeStateAction t events := by
  refine ⟨rfl, rfl, ?_⟩
  unfold activeStateAction enterActive
  rfl

/-- C9: with the collaborator `open` calls succeeding and
`currentState = START` at the call, `open` returns `NRF_SUCCESS` exactly
when the state machine has reached ACTIVE by the time the
`OPEN_WAIT_TIMEOUT` (2000 ms) wait ends, and `NRF_ERROR_TIMEOUT`
otherwise; if opening the lower transport fails, `open` instead returns
`NRF_ERROR_INTERNAL` and sets the START criterion `ioResourceError`. -/
theorem open_success_iff_active (t : H5Transport) (nextOpen : nrf_error)
    (sw : h5_state) (h : t.currentState = STATE_START) :
    ((openTransport t NRF_SUCCESS NRF_SUCCESS sw).2 = NRF_SUCCESS ↔
      sw = STATE_ACTIVE) ∧
    (sw ≠ STATE_ACTIVE →
      (openTransport t NRF_SUCCESS NRF_SUCCESS sw).2 = NRF_ERROR_TIMEOUT) ∧
    (nextOpen ≠ NRF_SUCCESS →
      (openTransport t NRF_SUCCESS nextOpen sw).2 = NRF_ERROR_INTERNAL ∧
      (openTransport t NRF_SUCCESS nextOpen sw).1.exitStart.ioResourceError =
        true) := by
  unfold openTransport waitForState
  by_cases hsw : sw = STATE_ACTIVE <;>
    by_cases hn : nextOpen = NRF_SUCCESS <;>
      simp [h, hsw, hn]

/-- C9 witness: on a fresh transport, reaching ACTIVE within the wait
yields `NRF_SUCCESS`; not reaching it yields `NRF_ERROR_TIMEOUT`; a
failing lower-transport `open` yields `NRF_ERROR_INTERNAL` with
`ioResourceError` set. -/
theorem open_success_iff_active_witness :
    ((openTransport initTransport NRF_SUCCESS NRF_SUCCESS STATE_ACTIVE).2 =
        NRF_SUCCESS ↔ STATE_ACTIVE = STATE_ACTIVE) ∧
    (STATE_ACTIVE ≠ STATE_ACTIVE →
      (openTransport initTransport NRF_SUCCESS NRF_SUCCESS STATE_ACTIVE).2 =
        NRF_ERROR_TIMEOUT) ∧
    (NRF_ERROR_INTERNAL ≠ NRF_SUCCESS →
      (openTransport initTransport NRF_SUCCESS NRF_ERROR_INTERNAL STATE_ACTIVE).2 =
        NRF_ERROR_INTERNAL ∧
      (openTransport initTransport NRF_SUCCESS NRF_ERROR_INTERNAL
        STATE_ACTIVE).1.exitStart.ioResourceError = true) :=
  open_success_iff_active initTransport NRF_ERROR_INTERNAL STATE_ACTIVE rfl

/-! ### Receive-assembler lemmas (for C6) -/

/-- The `unprocessedData` parameter of the byte loop is threaded through
passively: it only reappears (unchanged) when no frame is emitted, and is
cleared when one is; the delimiter flag, the packet buffer and the
emitted frames do not depend on it. -/
theorem dataHandlerLoop_unproc (bytes : List Nat) :
    ∀ (c0 : Bool) (p u : List Nat),
    dataHandlerLoop c0 p u bytes =
      ((dataHandlerLoop c0 p [] bytes).1,
       (dataHandlerLoop c0 p [] bytes).2.1,
       (if (dataHandlerLoop c0 p [] bytes).2.2.2 = [] then u else []),
       (dataHandlerLoop c0 p [] bytes).2.2.2) := by
  induction bytes with
  | nil => intro c0 p u; simp [dataHandlerLoop]
  | cons b rest ih =>
    intro c0 p u
    simp only [dataHandlerLoop]
    split
    · split
      · split
        · exact ih _ _ _
        · have h3 := congrArg (fun x => x.2.2.1) (ih false [] [])
          simp only [ite_self] at h3
          simp [h3]
      · exact ih _ _ _
    · exact ih _ _ _

/-- The emitted frames do not depend on the threaded `unprocessedData`
parameter. -/
theorem dataHandlerLoop_frames_indep (bytes : List Nat) (c0 : Bool)
    (p u : List Nat) :
    (dataHandlerLoop c0 p u bytes).2.2.2 =
      (dataHandlerLoop c0 p [] bytes).2.2.2 :=
  congrArg (fun x => x.2.2.2) (dataHandlerLoop_unproc bytes c0 p u)

/-- The final delimiter flag does not depend on the threaded
`unprocessedData` parameter. -/
theorem dataHandlerLoop_c0_indep (bytes : List Nat) (c0 : Bool)
    (p u : List Nat) :
    (dataHandlerLoop c0 p u bytes).1 = (dataHandlerLoop c0 p [] bytes).1 :=
  congrArg (fun x => x.1) (dataHandlerLoop_unproc bytes c0 p u)

/-- The final packet buffer does not depend on the threaded
`unprocessedData` parameter. -/
theorem dataHandlerLoop_packet_indep (bytes : List Nat) (c0 : Bool)
    (p u : List Nat) :
    (dataHandlerLoop c0 p u bytes).2.1 = (dataHandlerLoop c0 p [] bytes).2.1 :=
  congrArg (fun x => x.2.1) (dataHandlerLoop_unproc bytes c0 p u)

/-- Characterization of the `unprocessedData` member after the loop: it
is untouched when no frame was emitted and cleared otherwise. -/
theorem dataHandlerLoop_unproc_out (bytes : List Nat) (c0 : Bool)
    (p u : List Nat) :
    (dataHandlerLoop c0 p u bytes).2.2.1 =
      (if (dataHandlerLoop c0 p u bytes).2.2.2 = [] then u else []) := by
  have h1 := congrArg (fun x => x.2.2.1) (dataHandlerLoop_unproc bytes c0 p u)
  rw [dataHandlerLoop_frames_indep bytes c0 p u]
  exact h1

/-- The packet buffer can only be empty after the loop if a frame was
just emitted or it was empty to begin with. -/
theorem dataHandlerLoop_packet_nil (bytes : List Nat) :
    ∀ (c0 : Bool) (p u : List Nat),
    (dataHandlerLoop c0 p u bytes).2.1 = [] →
      (dataHandlerLoop c0 p u bytes).2.2.2 ≠ [] ∨ p = [] := by
  induction bytes with
  | nil => intro c0 p u h; exact Or.inr h
  | cons b rest ih =>
    intro c0 p u h
    simp only [dataHandlerLoop] at h ⊢
    by_cases hb : b = 0xC0
    · rw [if_pos hb] at h ⊢
      by_cases hc : c0 = true
      · rw [if_pos hc] at h ⊢
        by_cases hl : (p ++ [b]).length = 2
        · rw [if_pos hl] at h ⊢
          rcases ih _ _ _ h with hf | hp
          · exact Or.inl hf
          · simp at hp
        · rw [if_neg hl] at h ⊢
          left
          simp
      · rw [if_neg hc] at h ⊢
        rcases ih _ _ _ h with hf | hp
        · exact Or.inl hf
        · simp at hp
    · rw [if_neg hb] at h ⊢
      rcases ih _ _ _ h with hf | hp
      · exact Or.inl hf
      · simp at hp

/-- The byte loop over a concatenation is the composition of the byte
loops, with the emitted frames concatenated. -/
theorem dataHandlerLoop_append (xs : List Nat) :
    ∀ (ys : List Nat) (c0 : Bool) (p u : List Nat),
    dataHandlerLoop c0 p u (xs ++ ys) =
      ((dataHandlerLoop (dataHandlerLoop c0 p u xs).1
          (dataHandlerLoop c0 p u xs).2.1
          (dataHandlerLoop c0 p u xs).2.2.1 ys).1,
       (dataHandlerLoop (dataHandlerLoop c0 p u xs).1
          (dataHandlerLoop c0 p u xs).2.1
          (dataHandlerLoop c0 p u xs).2.2.1 ys).2.1,
       (dataHandlerLoop (dataHandlerLoop c0 p u xs).1
          (dataHandlerLoop c0 p u xs).2.1
          (dataHandlerLoop c0 p u xs).2.2.1 ys).2.2.1,
       (dataHandlerLoop c0 p u xs).2.2.2 ++
         (dataHandlerLoop (dataHandlerLoop c0 p u xs).1
            (dataHandlerLoop c0 p u xs).2.1
            (dataHandlerLoop c0 p u xs).2.2.1 ys).2.2.2) := by
  induction xs with
  | nil => intro ys c0 p u; simp [dataHandlerLoop]
  | cons b rest ih =>
    intro ys c0 p u
    simp only [List.cons_append, dataHandlerLoop]
    split
    · split
      · split
        · exact ih _ _ _ _
        · simp only [List.append_eq]
          rw [ih]
          simp
      · exact ih _ _ _ _
    · exact ih _ _ _ _

/-- `dataHandler` in terms of the byte loop: the stored assembler state
is exactly the loop's delimiter flag and packet buffer (when the buffer
ends empty the carried `unprocessedData` is empty too), and the emitted
frames are the loop's. -/
theorem dataHandler_eq (st : AsmState) (chunk : List Nat) :
    dataHandler st chunk =
      (⟨(dataHandlerLoop st.c0Found st.unprocessedData st.unprocessedData chunk).1,
        (dataHandlerLoop st.c0Found st.unprocessedData st.unprocessedData chunk).2.1⟩,
       (dataHandlerLoop st.c0Found st.unprocessedData st.unprocessedData chunk).2.2.2) := by
  unfold dataHandler
  by_cases hp :
      (dataHandlerLoop st.c0Found st.unprocessedData st.unprocessedData chunk).2.1 ≠ []
  · simp [hp]
  · simp only [not_not] at hp
    simp only [hp, ne_eq, not_true_eq_false, if_false]
    have hout := dataHandlerLoop_unproc_out chunk st.c0Found st.unprocessedData
      st.unprocessedData
    rcases dataHandlerLoop_packet_nil chunk st.c0Found st.unprocessedData
        st.unprocessedData hp with hf | hu
    · rw [if_neg hf] at hout
      simp [hout, hp]
    · rw [hout, hu, ite_self]

/-- Feeding the chunks one by one is the same as feeding their
concatenation in one callback: the carried `unprocessedData` tail makes
`dataHandler` invariant under re-chunking of the byte stream. -/
theorem dataHandlerChunks_flatten (chunks : List (List Nat)) :
    ∀ st : AsmState,
    dataHandlerChunks st chunks = dataHandler st chunks.flatten := by
  induction chunks with
  | nil =>
    intro st
    simp only [dataHandlerChunks, List.flatten_nil, dataHandler_eq,
      dataHandlerLoop]
  | cons c cs ih =>
    intro st
    simp only [dataHandlerChunks, List.flatten_cons]
    rw [ih, dataHandler_eq st c, dataHandler_eq st (c ++ cs.flatten)]
    rw [dataHandlerLoop_append c cs.flatten st.c0Found st.unprocessedData
      st.unprocessedData]
    rw [dataHandler_eq]
    simp only []
    rw [dataHandlerLoop_c0_indep cs.flatten _ _
        (dataHandlerLoop st.c0Found st.unprocessedData st.unprocessedData c).2.2.1,
      dataHandlerLoop_packet_indep cs.flatten _ _
        (dataHandlerLoop st.c0Found st.unprocessedData st.unprocessedData c).2.2.1,
      dataHandlerLoop_frames_indep cs.flatten _ _
        (dataHandlerLoop st.c0Found st.unprocessedData st.unprocessedData c).2.2.1,
      dataHandlerLoop_c0_indep cs.flatten _ _
        (dataHandlerLoop st.c0Found st.unprocessedData st.unprocessedData c).2.1,
      dataHandlerLoop_packet_indep cs.flatten _ _
        (dataHandlerLoop st.c0Found st.unprocessedData st.unprocessedData c).2.1,
      dataHandlerLoop_frames_indep cs.flatten _ _
        (dataHandlerLoop st.c0Found st.unprocessedData st.unprocessedData c).2.1]

/-- Running the byte loop with the delimiter already seen over an
escaped body (no `0xC0` inside) followed by the closing delimiter emits
exactly the accumulated frame, provided the buffer-plus-body is at least
2 bytes long (so the two-delimiters-in-a-row restart does not fire). -/
theorem dataHandlerLoop_frame_body (body : List Nat) :
    ∀ (buf u : List Nat), 0xC0 ∉ body → 2 ≤ (buf ++ body).length →
    dataHandlerLoop true buf u (body ++ [0xC0]) =
      (false, [], [], [buf ++ body ++ [0xC0]]) := by
  induction body with
  | nil =>
    intro buf u _ hlen
    simp only [List.append_nil] at hlen
    have hne2 : ¬(buf.length = 1) := by omega
    simp [dataHandlerLoop, hne2]
  | cons x body' ih =>
    intro buf u hmem hlen
    have hx : ¬(x = 0xC0) := fun h => hmem (h ▸ List.mem_cons_self x body')
    simp only [List.cons_append, dataHandlerLoop]
    rw [if_neg hx]
    simp only [List.append_eq]
    rw [ih (buf ++ [x]) u (fun h => hmem (List.mem_cons_of_mem _ h))
      (by simp at hlen ⊢; omega)]
    simp

/-- Fed the concatenation of well-formed stuffed frames from a clean
state, the byte loop emits exactly those frames and ends clean. -/
theorem dataHandlerLoop_wf_frames (frames : List (List Nat))
    (hwf : ∀ f ∈ frames, ∃ body, body ≠ [] ∧ 0xC0 ∉ body ∧
      f = 0xC0 :: (body ++ [0xC0])) :
    dataHandlerLoop false [] [] frames.flatten = (false, [], [], frames) := by
  induction frames with
  | nil => rfl
  | cons f rest ih =>
    obtain ⟨body, hne, hnc, hf⟩ := hwf f (List.mem_cons_self _ _)
    have hrest := ih fun g hg => hwf g (List.mem_cons_of_mem _ hg)
    rw [List.flatten_cons, hf, dataHandlerLoop_append]
    have hr : dataHandlerLoop false [] [] (0xC0 :: (body ++ [0xC0])) =
        (false, [], [], [0xC0 :: (body ++ [0xC0])]) := by
      have h1 : dataHandlerLoop false [] [] (0xC0 :: (body ++ [0xC0])) =
          dataHandlerLoop true [0xC0] [] (body ++ [0xC0]) := rfl
      rw [h1, dataHandlerLoop_frame_body body [0xC0] [] hnc
        (by have hlp := List.length_pos.mpr hne; simp; omega)]
      simp
    rw [hr]
    simp [hrest]

/-- Every frame the byte loop ever emits is at least 3 bytes long
(opening delimiter, at least one body byte, closing delimiter): the
`packet.size() == 2` restart guarantees two consecutive `0xC0` bytes
never yield an (empty) frame. -/
theorem dataHandlerLoop_emitted_length (bytes : List Nat) :
    ∀ (c0 : Bool) (p u : List Nat), (c0 = true → p ≠ []) →
    ∀ f ∈ (dataHandlerLoop c0 p u bytes).2.2.2, 3 ≤ f.length := by
  induction bytes with
  | nil => intro c0 p u _ f hf; simp [dataHandlerLoop] at hf
  | cons b rest ih =>
    intro c0 p u hinv f hf
    simp only [dataHandlerLoop] at hf
    by_cases hb : b = 0xC0
    · rw [if_pos hb] at hf
      by_cases hc : c0 = true
      · rw [if_pos hc] at hf
        by_cases hl : (p ++ [b]).length = 2
        · rw [if_pos hl] at hf
          exact ih true [0xC0] u (fun _ => by simp) f hf
        · rw [if_neg hl] at hf
          simp only [List.mem_cons] at hf
          rcases hf with hf | hf
          · subst hf
            have hp1 : 1 ≤ p.length := List.length_pos.mpr (hinv hc)
            simp only [List.length_append, List.length_cons,
              List.length_nil] at hl ⊢
            omega
          · exact ih false [] [] (fun h => nomatch h) f hf
      · rw [if_neg hc] at hf
        exact ih true [0xC0] u (fun _ => by simp) f hf
    · rw [if_neg hb] at hf
      exact ih c0 (p ++ [b]) u (fun _ => by simp) f hf

/-- C6: fed any partitioning of a byte stream consisting of `k`
well-formed stuffed frames (delimiter, non-empty `0xC0`-free body,
delimiter) into successive chunks, `dataHandler` hands exactly those `k`
frames, in order, to `processPacket`, carrying incomplete tails across
chunk boundaries and ending in a clean assembler state; moreover on any
chunk sequence whatsoever every emitted frame has at least 3 bytes, so
two consecutive `0xC0` delimiters never produce an empty frame. -/
theorem dataHandler_partition_exact_frames (frames chunks : List (List Nat))
    (hwf : ∀ f ∈ frames, ∃ body, body ≠ [] ∧ 0xC0 ∉ body ∧
      f = 0xC0 :: (body ++ [0xC0]))
    (hpart : chunks.flatten = frames.flatten) :
    dataHandlerChunks ⟨false, []⟩ chunks = (⟨false, []⟩, frames) ∧
    ∀ cs : List (List Nat), ∀ f ∈ (dataHandlerChunks ⟨false, []⟩ cs).2,
      3 ≤ f.length := by
  constructor
  · rw [dataHandlerChunks_flatten, hpart, dataHandler_eq]
    rw [show (⟨false, []⟩ : AsmState).c0Found = false from rfl,
      show (⟨false, []⟩ : AsmState).unprocessedData = [] from rfl,
      dataHandlerLoop_wf_frames frames hwf]
  · intro cs f hf
    rw [dataHandlerChunks_flatten, dataHandler_eq] at hf
    exact dataHandlerLoop_emitted_length cs.flatten false [] []
      (fun h => nomatch h) f hf

/-- C6 witness: two frames `C0 01 C0` and `C0 02 03 C0`, partitioned
mid-frame and with the second frame's delimiters split across chunks,
come out exactly as those two frames. -/
theorem dataHandler_partition_exact_frames_witness :
    dataHandlerChunks ⟨false, []⟩ [[0xC0], [0x01, 0xC0, 0xC0, 0x02], [0x03, 0xC0]] =
      (⟨false, []⟩, [[0xC0, 0x01, 0xC0], [0xC0, 0x02, 0x03, 0xC0]]) ∧
    ∀ cs : List (List Nat), ∀ f ∈ (dataHandlerChunks ⟨false, []⟩ cs).2,
      3 ≤ f.length :=
  dataHandler_partition_exact_frames
    [[0xC0, 0x01, 0xC0], [0xC0, 0x02, 0x03, 0xC0]]
    [[0xC0], [0x01, 0xC0, 0xC0, 0x02], [0x03, 0xC0]]
    (by
      intro f hf
      simp only [List.mem_cons, List.not_mem_nil, or_false] at hf
      rcases hf with hf | hf
      · exact ⟨[0x01], by simp, by decide, by rw [hf]; rfl⟩
      · exact ⟨[0x02, 0x03], by simp, by decide, by rw [hf]; rfl⟩)
    (by decide)

end H5
